import Mathlib

/-!
Shallow embedding of src/openhands/integrations/azure_devops/azure_devops_service.py
(class AzureDevOpsServiceImpl) together with theorems settling the behavioural
claims about it.

Modelling conventions:
* Python dictionaries coming back from the provider are modelled as structures
  whose fields are Option-typed (a missing key is none); dict.get with a default
  is Option.getD, dict.get without a default is the Option itself.
* The HTTP transport is modelled per operation as an environment of total
  response functions (URL to payload); every operation additionally returns the
  list of request URLs it issued, in order.  Composite operations are modelled
  on runs in which every issued request succeeds; the 401-retry behaviour of the
  shared request helper itself is modelled separately (see _make_request below).
* Python string/list primitives used by the source (split, replace, slicing,
  list.sort, lower, the in operator, str() of None) are embedded as executable
  Lean functions over character lists, so all concrete runs evaluate by decide.
-/

deriving instance DecidableEq for Except

namespace AzureDevOps

/-- Python str() rendering of an optional string value: None renders as "None"
(this is what an f-string does to a missing dict value). -/
def pyStr : Option String → String
  | none => "None"
  | some s => s

/-- Python str() rendering of an optional integer value. -/
def pyIntStr : Option Int → String
  | none => "None"
  | some i => toString i

/-- Python truthiness of an optional string: None and the empty string are falsy. -/
def pyTruthyStrOpt : Option String → Bool
  | none => false
  | some s => s != ""

/-- Lexicographic comparison of character lists by code point, the comparison
Python uses for str < str. -/
def charListLt : List Char → List Char → Bool
  | [], [] => false
  | [], _ :: _ => true
  | _ :: _, [] => false
  | a :: as, b :: bs => if a < b then true else if b < a then false else charListLt as bs

/-- Python string comparison a < b. -/
def pyStrLt (a b : String) : Bool := charListLt a.data b.data

/-- ASCII lowering of one character; the repository only ever lowercases
repository names and search queries, for which the ASCII case of str.lower
is the relevant behaviour. -/
def pyCharLower (c : Char) : Char :=
  if 'A' ≤ c ∧ c ≤ 'Z' then Char.ofNat (c.toNat + 32) else c

/-- Python str.lower, ASCII fragment. -/
def pyLower (s : String) : String := ⟨s.data.map pyCharLower⟩

/-- Splitting a character list on a separator character; always returns at
least one (possibly empty) segment, like Python str.split with an argument. -/
def splitChar (c : Char) : List Char → List (List Char)
  | [] => [[]]
  | x :: xs =>
    if x = c then [] :: splitChar c xs
    else
      match splitChar c xs with
      | [] => [[x]]
      | y :: ys => (x :: y) :: ys

/-- Python s.split(c) for a one-character separator. -/
def pySplit (s : String) (c : Char) : List String :=
  (splitChar c s.data).map (fun l => ⟨l⟩)

/-- Occurrence test for a character sequence inside another, the semantics of
the Python in operator on strings. -/
def listHasSeq (pat : List Char) : List Char → Bool
  | [] => pat.isPrefixOf []
  | x :: xs => pat.isPrefixOf (x :: xs) || listHasSeq pat xs

/-- Python pat in s (substring containment). -/
def strContains (s pat : String) : Bool := listHasSeq pat.data s.data

/-- Python str.replace core: scan left to right, replace each non-overlapping
occurrence of pat by rep.  The first argument of type Nat is fuel, always
called with the length of the scanned list so the recursion is structural. -/
def pyReplaceFuel (pat rep : List Char) : Nat → List Char → List Char
  | _, [] => []
  | 0, l => l
  | fuel + 1, x :: xs =>
    if pat.isPrefixOf (x :: xs) && !pat.isEmpty then
      rep ++ pyReplaceFuel pat rep fuel (xs.drop (pat.length - 1))
    else
      x :: pyReplaceFuel pat rep fuel xs

/-- Python s.replace(pat, rep) for a non-empty pat. -/
def pyReplace (s pat rep : String) : String :=
  ⟨pyReplaceFuel pat.data rep.data s.data.length s.data⟩

/-- Clamp one Python slice index to the list length, with negative indices
counted from the end. -/
def pySliceIdx (len : Nat) (i : Int) : Nat :=
  if i < 0 then ((len : Int) + i).toNat else min len i.toNat

/-- Python l[start:stop] slicing semantics. -/
def pySlice (l : List α) (start stop : Int) : List α :=
  let s := pySliceIdx l.length start
  let e := pySliceIdx l.length stop
  (l.drop s).take (e - s)

/-- Stable insertion used by the stable-sort model: x is placed after every
already-placed element le-below-or-equal to it. -/
def pyInsert (le : α → α → Bool) (x : α) : List α → List α
  | [] => [x]
  | b :: bs => if le b x then b :: pyInsert le x bs else x :: b :: bs

/-- Output model of CPython list.sort for a total preorder le: the unique
stable le-ascending reordering (stable sorts agree on their output, so the
algorithm used here need not be timsort). -/
def pySortBy (le : α → α → Bool) (l : List α) : List α :=
  l.foldl (fun acc x => pyInsert le x acc) []

/-- Failure taxonomy for the adapter.  invalidFormat is the ValueError raised
on malformed repository identifiers; typeError and attributeError are the
Python exceptions escaping list.sort with a broken key; the HTTP variants are
produced by status classification. -/
inductive AdapterError where
  | invalidFormat (msg : String)
  | authFailure (status : Nat)
  | httpError (status : Nat)
  | typeError
  | attributeError
  deriving DecidableEq, Repr

/-- One transport response: HTTP status plus the parsed JSON payload. -/
structure HttpResponse (α : Type) where
  status : Nat
  body : α
  deriving DecidableEq, Repr

/-- Success statuses, the 2xx range (httpx raise_for_status raises otherwise). -/
def isSuccessStatus (status : Nat) : Bool := 200 ≤ status && status < 300

/-- Modelled from the spec: the error-classification helper
handle_http_status_error lives in openhands.integrations (not under src/);
section 7 of the spec maps 401/403 to an auth/permission failure and any other
non-2xx status to a generic provider HTTP error. -/
def classifyStatus (status : Nat) : AdapterError :=
  if status = 401 || status = 403 then .authFailure status else .httpError status

/-- raise_for_status followed by classification: a 2xx response yields its
payload, anything else becomes a typed failure. -/
def raiseForStatus (r : HttpResponse α) : Except AdapterError α :=
  if isSuccessStatus r.status then .ok r.body else .error (classifyStatus r.status)

/-- Source _has_token_expired (line 107). -/
def _has_token_expired (status_code : Nat) : Bool := status_code == 401

/-- Outcome of one _make_request call: its result, how many HTTP requests were
issued, and how many times the credential hook get_latest_token was invoked. -/
structure MakeRequestRun (α : Type) where
  result : Except AdapterError α
  requests : Nat
  token_fetches : Nat
  deriving Repr

/-- Source _make_request (lines 113 to 154).  tokenPresent models truthiness of
the cached self.token (the header builder only consults the credential hook
when no token is cached); responses n is the transport response to the n-th
issue of this request.  On a 401 first response with the refresh flag set, the
code re-fetches the credential and re-issues the same request exactly once,
then raises for status on whichever response is current. -/
def _make_request (refresh : Bool) (tokenPresent : Bool)
    (responses : Nat → HttpResponse α) : MakeRequestRun α :=
  let headerFetch : Nat := if tokenPresent then 0 else 1
  let r1 := responses 0
  if refresh && _has_token_expired r1.status then
    let r2 := responses 1
    { result := raiseForStatus r2,
      requests := 2,
      token_fetches := headerFetch + 1 + headerFetch }
  else
    { result := raiseForStatus r1,
      requests := 1,
      token_fetches := headerFetch }

/-- Modelled from the spec: the Repository record of the provider-agnostic
interface (service_types is not under src/); the adapter fills id, the
three-segment full name, and a constant is_public = false. -/
structure Repository where
  id : String
  full_name : String
  is_public : Bool
  deriving DecidableEq, Repr

/-- Modelled from the spec: the BranchRef record {name, commit_sha, protected,
last_push_date}; the source field named protected is called is_protected here
because protected is a Lean keyword. -/
structure Branch where
  name : String
  commit_sha : String
  is_protected : Bool
  last_push_date : Option String
  deriving DecidableEq, Repr

/-- Modelled from the spec: the four suggested-task kinds. -/
inductive TaskType where
  | MERGE_CONFLICTS
  | FAILING_CHECKS
  | UNRESOLVED_COMMENTS
  | OPEN_ISSUE
  deriving DecidableEq, Repr

/-- Modelled from the spec: the SuggestedTask record (the constant
git_provider field is omitted). -/
structure SuggestedTask where
  task_type : TaskType
  repo : String
  issue_number : Option Int
  title : String
  deriving DecidableEq, Repr

/-- Modelled from the spec: the paginated branch-listing response record. -/
structure PaginatedBranchesResponse where
  branches : List Branch
  has_next_page : Bool
  current_page : Int
  per_page : Int
  deriving DecidableEq, Repr

/-- The message of the ValueError raised on a malformed repository identifier
(source lines 406 to 408 and the three inlined copies). -/
def invalid_format_message (repository : String) : String :=
  s!"Invalid repository format: {repository}. Expected format: organization/project/repo"

/-- Source _parse_repository (lines 592 to 606): split on the slash, require at
least three segments, return the first three.  The methods
get_repository_details_from_repo_name, get_branches, get_paginated_branches and
create_pr inline byte-for-byte the same split-check-raise code (lines 404-412,
427-435, 479-487, 560-568), so their embeddings below share this definition. -/
def _parse_repository (repository : String) : Except AdapterError (String × String × String) :=
  let parts := pySplit repository '/'
  if parts.length < 3 then
    .error (.invalidFormat (invalid_format_message repository))
  else
    .ok (parts.getD 0 "", parts.getD 1 "", parts.getD 2 "")

/-- One entry of the projects-listing payload (only the name key is read). -/
structure ProjectData where
  name : Option String
  deriving DecidableEq, Repr

/-- One entry of a repository-listing payload (keys read by the source). -/
structure RepoData where
  id : Option String
  name : Option String
  lastUpdateTime : Option String
  deriving DecidableEq, Repr

/-- One element of the all_repos working list built by get_repositories
(lines 230 to 238); every key is present, with possibly-None values. -/
structure RepoEntry where
  id : Option String
  name : Option String
  project_name : Option String
  updated_date : Option String
  deriving DecidableEq, Repr

/-- Transport environment for the repository-listing operations: the project
list returned by the projects endpoint and, per rendered project name, the
repository list returned by that project's repositories endpoint. -/
structure ReposEnv where
  projects : List ProjectData
  reposOf : String → List RepoData

/-- URL of the projects-listing request (line 215). -/
def projects_url_of (organization : String) : String :=
  s!"https://dev.azure.com/{organization}/_apis/projects?api-version=7.1"

/-- URL of one per-project repository-listing request (lines 224 to 226). -/
def repos_url_of (organization : String) (p : ProjectData) : String :=
  let project_name := pyStr p.name
  s!"https://dev.azure.com/{organization}/{project_name}/_apis/git/repositories?api-version=7.1"

/-- The dict appended to all_repos for one repository (lines 231 to 238). -/
def mkRepoEntry (project_name : Option String) (r : RepoData) : RepoEntry :=
  { id := r.id, name := r.name, project_name := project_name, updated_date := r.lastUpdateTime }

/-- Inner loop of get_repositories (lines 230 to 241): append entries for one
project's repositories, stopping once the running list reaches MAX_REPOS.
Instead of carrying the accumulated list, the loop carries remaining =
MAX_REPOS - len(all_repos), which the break condition len >= MAX_REPOS turns
into remaining = 0. -/
def appendProjectRepos (project_name : Option String) : Nat → List RepoData → List RepoEntry
  | _, [] => []
  | 0, _ :: _ => []
  | remaining + 1, r :: rs => mkRepoEntry project_name r :: appendProjectRepos project_name remaining rs

/-- Outer loop of get_repositories (lines 222 to 244): per project, one
repository-listing request, the inner append loop, and a break once MAX_REPOS
entries are collected.  Returns the collected entries and the issued
per-project request URLs; remaining is MAX_REPOS minus the entries collected
so far (positive on entry, as in the source). -/
def reposProjectLoop (env : ReposEnv) (organization : String) :
    Nat → List ProjectData → List RepoEntry × List String
  | _, [] => ([], [])
  | remaining, p :: ps =>
    let url := repos_url_of organization p
    let repos := env.reposOf (pyStr p.name)
    let fetched := appendProjectRepos p.name remaining repos
    if remaining ≤ fetched.length then (fetched, [url])
    else
      let (es, log) := reposProjectLoop env organization (remaining - fetched.length) ps
      (fetched ++ es, url :: log)

/-- The sort key r.get('updated_date', '') of line 248: the key is always
present in the entries built at lines 231-238, so the '' default is dead and a
missing lastUpdateTime yields a None key.  CPython computes all keys first and
raises TypeError as soon as a comparison involves a None key, which happens
exactly when the list has at least two elements and is not uniformly
str-keyed; a uniformly str-keyed list is stably sorted descending
(reverse=True). -/
def pySortUpdatedDesc (l : List RepoEntry) : Except AdapterError (List RepoEntry) :=
  if l.length ≤ 1 then .ok l
  else if l.all (fun e => e.updated_date.isSome) then
    .ok (pySortBy (fun a b => !(pyStrLt (a.updated_date.getD "") (b.updated_date.getD ""))) l)
  else .error .typeError

/-- The sort key r.get('name', '').lower() of line 250: again the key is always
present, so a missing repository name yields a None key and the key function
itself raises AttributeError (None.lower()); CPython computes keys for every
element before comparing, so any None name on a non-empty list raises.
Otherwise the list is stably sorted ascending by lowercased name. -/
def pySortNameAsc (l : List RepoEntry) : Except AdapterError (List RepoEntry) :=
  if l.all (fun e => e.name.isSome) then
    .ok (pySortBy (fun a b =>
      !(pyStrLt (pyLower (b.name.getD "")) (pyLower (a.name.getD "")))) l)
  else .error .attributeError

/-- Result of one repository-listing run: the returned list (or the escaping
Python exception) plus the issued request URLs in order. -/
structure ReposRun where
  result : Except AdapterError (List Repository)
  requests : List String
  deriving DecidableEq, Repr

/-- The Repository built from one all_repos entry (lines 252 to 259);
str(repo.get('id')) renders a missing id as "None", as does the f-string for
missing project or repository names. -/
def repoOfEntry (organization : String) (e : RepoEntry) : Repository :=
  { id := pyStr e.id,
    full_name := organization ++ "/" ++ pyStr e.project_name ++ "/" ++ pyStr e.name,
    is_public := false }

/-- Source get_repositories (lines 210 to 260): list projects, enumerate each
project's repositories into all_repos capped at MAX_REPOS = 1000, sort
according to the sort argument, and map the first 1000 entries to Repository
records. -/
def get_repositories (env : ReposEnv) (organization : String) (sort : String) : ReposRun :=
  let projects_url := projects_url_of organization
  let (all_repos, repoLog) := reposProjectLoop env organization 1000 env.projects
  let sorted : Except AdapterError (List RepoEntry) :=
    if sort = "updated" then pySortUpdatedDesc all_repos
    else if sort = "name" then pySortNameAsc all_repos
    else .ok all_repos
  { result := sorted.map (fun l => (l.take 1000).map (repoOfEntry organization)),
    requests := projects_url :: repoLog }

/-- Source get_paginated_repos (lines 284 to 309): fetch the full capped list
via get_repositories, optionally filter by a case-insensitive substring query
on the full name, then slice [(page-1)*per_page : (page-1)*per_page+per_page]
with Python slicing semantics (no bounds validation). -/
def get_paginated_repos (env : ReposEnv) (organization : String)
    (page per_page : Int) (sort : String) (query : Option String) : ReposRun :=
  let run := get_repositories env organization sort
  match run.result with
  | .error e => { result := .error e, requests := run.requests }
  | .ok all_repos =>
    let start_idx : Int := (page - 1) * per_page
    let end_idx : Int := start_idx + per_page
    let filtered :=
      if pyTruthyStrOpt query then
        let query_lower := pyLower (query.getD "")
        all_repos.filter (fun r => strContains (pyLower r.full_name) query_lower)
      else all_repos
    { result := .ok (pySlice filtered start_idx end_idx), requests := run.requests }

/-- One entry of the refs-listing payload (keys read by the source). -/
structure RefData where
  name : Option String
  objectId : Option String
  deriving DecidableEq, Repr

/-- The fields of a commit payload read by the source:
commit_data.get('committer', {}).get('date'). -/
structure CommitData where
  committer_date : Option String
  deriving DecidableEq, Repr

/-- The fields of the repository-lookup payload read by get_paginated_branches
(only id). -/
structure RepoLookupData where
  id : Option String
  deriving DecidableEq, Repr

/-- Transport environment for the branch-listing operations: the repository
lookup payload, the head-refs list, and per-URL responses for the commit and
policy-configuration requests. -/
structure BranchEnv where
  repoLookup : RepoLookupData
  refs : List RefData
  commitOf : String → CommitData
  policyOf : String → List Unit

/-- URL of the repository lookup issued by get_paginated_branches (line 490)
and by get_repository_details_from_repo_name (line 414). -/
def repo_lookup_url (org project repo_name : String) : String :=
  s!"https://dev.azure.com/{org}/{project}/_apis/git/repositories/{repo_name}?api-version=7.1"

/-- URL of the head-refs listing (lines 437 and 494). -/
def refs_url_of (org project repo_name : String) : String :=
  s!"https://dev.azure.com/{org}/{project}/_apis/git/repositories/{repo_name}/refs?api-version=7.1&filter=heads/"

/-- URL of one per-branch commit lookup (lines 453 and 511). -/
def branch_commit_url (org project repo_name object_id : String) : String :=
  s!"https://dev.azure.com/{org}/{project}/_apis/git/repositories/{repo_name}/commits/{object_id}?api-version=7.1"

/-- URL of one per-branch policy-configurations lookup (lines 457 and 515);
get_branches passes the repository name as repositoryId, get_paginated_branches
passes the looked-up repository id. -/
def branch_policy_url (org project policy_repo_id name : String) : String :=
  s!"https://dev.azure.com/{org}/{project}/_apis/git/policy/configurations?api-version=7.1&repositoryId={policy_repo_id}&refName=refs/heads/{name}"

/-- The per-ref body shared by both branch loops (lines 447 to 467 and 505 to
525): replace every occurrence of refs/heads/ in the ref name, fetch the tip
commit, fetch the policy configurations for the resulting name, and derive
protected from a non-empty policy list. -/
def branchOfRef (env : BranchEnv) (org project repo_name policy_repo_id : String)
    (r : RefData) : Branch :=
  let name := pyReplace (r.name.getD "") "refs/heads/" ""
  let object_id := r.objectId.getD ""
  let commit_data := env.commitOf (branch_commit_url org project repo_name object_id)
  let policy_count := (env.policyOf (branch_policy_url org project policy_repo_id name)).length
  { name := name,
    commit_sha := object_id,
    is_protected := decide (0 < policy_count),
    last_push_date := commit_data.committer_date }

/-- The two request URLs issued for one ref by either branch loop. -/
def branchReqUrls (org project repo_name policy_repo_id : String)
    (r : RefData) : List String :=
  let name := pyReplace (r.name.getD "") "refs/heads/" ""
  let object_id := r.objectId.getD ""
  [branch_commit_url org project repo_name object_id,
   branch_policy_url org project policy_repo_id name]

/-- The per-branch loop of get_branches (lines 447 to 470): process refs in
order, two requests per ref, stopping once MAX_BRANCHES = 1000 branches are
collected.  As in reposProjectLoop, remaining replaces the accumulated list so
the break on len >= MAX_BRANCHES becomes remaining = 0. -/
def branchFetchLoop (env : BranchEnv) (org project repo_name : String) :
    Nat → List RefData → List Branch × List String
  | _, [] => ([], [])
  | 0, _ :: _ => ([], [])
  | remaining + 1, r :: rs =>
    let b := branchOfRef env org project repo_name repo_name r
    let urls := branchReqUrls org project repo_name repo_name r
    let (bs, log) := branchFetchLoop env org project repo_name remaining rs
    (b :: bs, urls ++ log)

/-- Result of a branch-listing run. -/
structure BranchesRun where
  result : Except AdapterError (List Branch)
  requests : List String
  deriving DecidableEq, Repr

/-- Source get_branches (lines 424 to 472): parse the identifier (raising
before any request on fewer than three segments), list the head refs, then run
the capped per-branch loop. -/
def get_branches (env : BranchEnv) (repository : String) : BranchesRun :=
  match _parse_repository repository with
  | .error e => { result := .error e, requests := [] }
  | .ok (org, project, repo_name) =>
    let refs_url := refs_url_of org project repo_name
    let branches_data := env.refs
    let (all_branches, log) := branchFetchLoop env org project repo_name 1000 branches_data
    { result := .ok all_branches, requests := refs_url :: log }

/-- Result of a paginated branch-listing run. -/
structure PaginatedBranchesRun where
  result : Except AdapterError PaginatedBranchesResponse
  requests : List String
  deriving DecidableEq, Repr

/-- Source get_paginated_branches (lines 474 to 535): parse the identifier,
look up the repository id (falling back to the repository name), list the head
refs, slice to the requested page with Python slicing, run the per-branch body
over the slice only (no cap), and report has_next_page = end_idx < total. -/
def get_paginated_branches (env : BranchEnv) (repository : String)
    (page per_page : Int) : PaginatedBranchesRun :=
  match _parse_repository repository with
  | .error e => { result := .error e, requests := [] }
  | .ok (org, project, repo_name) =>
    let repo_url := repo_lookup_url org project repo_name
    let repo_id := env.repoLookup.id.getD repo_name
    let refs_url := refs_url_of org project repo_name
    let branches_data := env.refs
    let start_idx : Int := (page - 1) * per_page
    let end_idx : Int := start_idx + per_page
    let paginated_data := pySlice branches_data start_idx end_idx
    let branches := paginated_data.map (branchOfRef env org project repo_name repo_id)
    let log := paginated_data.flatMap (branchReqUrls org project repo_name repo_id)
    let has_next_page := decide (end_idx < (branches_data.length : Int))
    { result := .ok { branches := branches, has_next_page := has_next_page,
                      current_page := page, per_page := per_page },
      requests := repo_url :: refs_url :: log }

/-- Result of a repository-details run. -/
structure RepoDetailsRun where
  result : Except AdapterError Repository
  requests : List String
  deriving DecidableEq, Repr

/-- Transport environment for get_repository_details_from_repo_name. -/
structure RepoDetailsEnv where
  repoResp : RepoData

/-- Source get_repository_details_from_repo_name (lines 399 to 422). -/
def get_repository_details_from_repo_name (env : RepoDetailsEnv)
    (repository : String) : RepoDetailsRun :=
  match _parse_repository repository with
  | .error e => { result := .error e, requests := [] }
  | .ok (org, project, repo_name) =>
    let url := repo_lookup_url org project repo_name
    let repo := env.repoResp
    { result := .ok { id := pyStr repo.id,
                      full_name := org ++ "/" ++ project ++ "/" ++ pyStr repo.name,
                      is_public := false },
      requests := [url] }

/-- The pull-request creation payload sent by create_pr (lines 576 to 582). -/
structure PullRequestPayload where
  sourceRefName : String
  targetRefName : String
  title : String
  description : String
  isDraft : Bool
  deriving DecidableEq, Repr

/-- Transport environment for create_pr (only pullRequestId is read from the
response). -/
structure CreatePrEnv where
  pullRequestId : Option Int

/-- Result of a create_pr run: the payload it sent and the web URL it returns,
plus the issued request URLs. -/
structure CreatePrRun where
  result : Except AdapterError (PullRequestPayload × String)
  requests : List String
  deriving DecidableEq, Repr

/-- URL of the pull-request creation POST (line 570). -/
def create_pr_post_url (org project repo : String) : String :=
  s!"https://dev.azure.com/{org}/{project}/_apis/git/repositories/{repo}/pullrequests?api-version=7.1"

/-- The web URL create_pr returns (line 590). -/
def create_pr_web_url (org project repo pr_id : String) : String :=
  s!"https://dev.azure.com/{org}/{project}/_git/{repo}/pullrequest/{pr_id}"

/-- Source create_pr (lines 537 to 590): parse the identifier, default the
body to the generated sentence whenever body is falsy (None or empty), prepend
refs/heads/ to both branch names, POST once, and return the constructed web
URL of the new pull request. -/
def create_pr (env : CreatePrEnv) (repo_name source_branch target_branch title : String)
    (body : Option String) (draft : Bool) : CreatePrRun :=
  match _parse_repository repo_name with
  | .error e => { result := .error e, requests := [] }
  | .ok (org, project, repo) =>
    let url := create_pr_post_url org project repo
    let body' := if pyTruthyStrOpt body then body.getD ""
                 else "Merging changes from " ++ source_branch ++ " into " ++ target_branch
    let payload : PullRequestPayload :=
      { sourceRefName := "refs/heads/" ++ source_branch,
        targetRefName := "refs/heads/" ++ target_branch,
        title := title,
        description := body',
        isDraft := draft }
    let pr_id := pyIntStr env.pullRequestId
    { result := .ok (payload, create_pr_web_url org project repo pr_id),
      requests := [url] }

/-- One entry of the active-pull-requests payload (keys read by the source);
repository_name models pr.get('repository', {}).get('name', ''). -/
structure PullRequestData where
  repository_name : Option String
  pullRequestId : Option Int
  title : Option String
  mergeStatus : Option String
  status : Option String
  hasUnresolvedComments : Bool
  deriving DecidableEq, Repr

/-- One entry of the WIQL workItems reference list. -/
structure WorkItemRef where
  id : Option Int
  deriving DecidableEq, Repr

/-- The fields of a work-item detail payload read by the source:
work_item.get('fields', {}).get('System.Title', ''). -/
structure WorkItemData where
  title : Option String
  deriving DecidableEq, Repr

/-- Transport environment for get_suggested_tasks: the profile id, the active
pull requests authored by the user, the WIQL reference list, and per-URL
work-item detail payloads. -/
structure TasksEnv where
  user_id : Option String
  prs : List PullRequestData
  workItemRefs : List WorkItemRef
  workItemOf : String → WorkItemData

/-- The pull-request classification loop of get_suggested_tasks (lines 326 to
363): per pull request, at most one task, chosen by the if/elif/elif priority
order merge conflicts, then failing checks, then unresolved comments. -/
def prTasksLoop (organization project : String) : List PullRequestData → List SuggestedTask
  | [] => []
  | pr :: prs =>
    let repo_name := pr.repository_name.getD ""
    let pr_id := pr.pullRequestId
    let title := pr.title.getD ""
    let repo := organization ++ "/" ++ project ++ "/" ++ repo_name
    let rest := prTasksLoop organization project prs
    if pr.mergeStatus == some "conflicts" then
      { task_type := .MERGE_CONFLICTS, repo := repo, issue_number := pr_id, title := title } :: rest
    else if pr.status == some "failed" then
      { task_type := .FAILING_CHECKS, repo := repo, issue_number := pr_id, title := title } :: rest
    else if pr.hasUnresolvedComments then
      { task_type := .UNRESOLVED_COMMENTS, repo := repo, issue_number := pr_id, title := title } :: rest
    else rest

/-- URL of one work-item detail request (line 382). -/
def work_item_url_of (organization project : String) (ref : WorkItemRef) : String :=
  let work_item_id := pyIntStr ref.id
  s!"https://dev.azure.com/{organization}/{project}/_apis/wit/workitems/{work_item_id}?api-version=7.1"

/-- The work-item loop of get_suggested_tasks (lines 380 to 395): one detail
request and one OPEN_ISSUE task per reference, with the two-segment repo field
organization/project. -/
def workItemTasksLoop (env : TasksEnv) (organization project : String) :
    List WorkItemRef → List SuggestedTask × List String
  | [] => ([], [])
  | ref :: refs =>
    let url := work_item_url_of organization project ref
    let work_item := env.workItemOf url
    let title := work_item.title.getD ""
    let t : SuggestedTask :=
      { task_type := .OPEN_ISSUE,
        repo := organization ++ "/" ++ project,
        issue_number := ref.id,
        title := title }
    let (ts, log) := workItemTasksLoop env organization project refs
    (t :: ts, url :: log)

/-- Result of a suggested-tasks run. -/
structure TasksRun where
  result : List SuggestedTask
  requests : List String
  deriving DecidableEq, Repr

/-- Source get_suggested_tasks (lines 311 to 397): empty result and no request
when no project is bound; otherwise resolve the user (two requests), fetch the
active pull requests, classify each into at most one task, then query work
items (one WIQL request plus one detail request each) and append one
OPEN_ISSUE task per work item; pull-request tasks come first. -/
def get_suggested_tasks (env : TasksEnv) (organization project : String) : TasksRun :=
  if project == "" then { result := [], requests := [] }
  else
    let user_url := s!"https://dev.azure.com/{organization}/_apis/profile/profiles/me?api-version=7.1-preview.1"
    let user_id := env.user_id.getD ""
    let user_details_url := s!"https://dev.azure.com/{organization}/_apis/graph/users/{user_id}?api-version=7.1-preview.1"
    let prs_url := s!"https://dev.azure.com/{organization}/{project}/_apis/git/pullrequests?api-version=7.1&searchCriteria.creatorId={user_id}&searchCriteria.status=active"
    let pr_tasks := prTasksLoop organization project env.prs
    let wiql_url := s!"https://dev.azure.com/{organization}/{project}/_apis/wit/wiql?api-version=7.1"
    let (wi_tasks, wi_log) := workItemTasksLoop env organization project env.workItemRefs
    { result := pr_tasks ++ wi_tasks,
      requests := [user_url, user_details_url, prs_url, wiql_url] ++ wi_log }

/-- Concrete branch environment used by witnesses. -/
def envBranchesW : BranchEnv :=
  { repoLookup := ⟨none⟩, refs := [], commitOf := fun _ => ⟨none⟩,
    policyOf := fun _ => [] }

/-- Concrete transport used by the C2 witness: 401 on the first attempt, 200
with payload 7 on the second. -/
def responsesW : Nat → HttpResponse Nat :=
  fun n => if n = 0 then ⟨401, 0⟩ else ⟨200, 7⟩

/-- Spec-side description of which per-project repository-listing requests
get_repositories issues: projects are walked in listing order, one request
per project, and the walk stops right after the first project whose
repositories bring the collected total (the collected argument) to 1000. -/
def cappedFetchUrls (env : ReposEnv) (organization : String) :
    List ProjectData → Nat → List String
  | [], _ => []
  | p :: ps, collected =>
    let count := (env.reposOf (pyStr p.name)).length
    repos_url_of organization p ::
      (if 1000 ≤ collected + count then []
       else cappedFetchUrls env organization ps (collected + count))

/-- Concrete one-project environment used by the C5 witness. -/
def envReposW : ReposEnv :=
  { projects := [⟨some "p"⟩], reposOf := fun _ => [⟨some "1", some "a", none⟩] }

/-- Concrete environment with one dated and one undated repository. -/
def envReposMixedDates : ReposEnv :=
  { projects := [⟨some "p"⟩],
    reposOf := fun _ =>
      [⟨some "1", some "r1", some "2024-01-01T00:00:00Z"⟩, ⟨some "2", some "r2", none⟩] }

/-- Concrete one-project environment with twelve repositories. -/
def envReposTwelve : ReposEnv :=
  { projects := [⟨some "p"⟩],
    reposOf := fun _ =>
      (List.range 12).map (fun i => ⟨some (toString i), some (toString i), none⟩) }

/-- Concrete five-ref environment for the C6 counterexample. -/
def envBranchFive : BranchEnv :=
  { repoLookup := ⟨some "RID"⟩,
    refs := (List.range 5).map (fun i => ⟨some ("refs/heads/b" ++ toString i), some "sha"⟩),
    commitOf := fun _ => ⟨some "2024"⟩,
    policyOf := fun _ => [] }

/-- Concrete twenty-five-ref environment for the C6 witness. -/
def envBranchMany : BranchEnv :=
  { repoLookup := ⟨some "RID"⟩,
    refs := (List.range 25).map (fun i => ⟨some ("refs/heads/b" ++ toString i), some "sha"⟩),
    commitOf := fun _ => ⟨some "2024"⟩,
    policyOf := fun _ => [] }

/-- Concrete environment whose single ref name contains refs/heads/ twice. -/
def envBranchNested : BranchEnv :=
  { repoLookup := ⟨none⟩,
    refs := [⟨some "refs/heads/refs/heads/x", some "abc"⟩],
    commitOf := fun _ => ⟨none⟩,
    policyOf := fun _ => [(), ()] }

/-- Concrete single-branch environment for the C8 witness. -/
def envBranchPlain : BranchEnv :=
  { repoLookup := ⟨none⟩,
    refs := [⟨some "refs/heads/main", some "s1"⟩],
    commitOf := fun _ => ⟨some "2024"⟩,
    policyOf := fun _ => [()] }

/-- Spec-side classification of one pull request into at most one suggested
task, following the priority order of the spec: merge-conflict status first,
else failed status, else the unresolved-comments flag, else nothing. -/
def classifyPrTask (organization project : String) (pr : PullRequestData) :
    Option SuggestedTask :=
  let repo := organization ++ "/" ++ project ++ "/" ++ pr.repository_name.getD ""
  if pr.mergeStatus == some "conflicts" then
    some { task_type := .MERGE_CONFLICTS, repo := repo,
           issue_number := pr.pullRequestId, title := pr.title.getD "" }
  else if pr.status == some "failed" then
    some { task_type := .FAILING_CHECKS, repo := repo,
           issue_number := pr.pullRequestId, title := pr.title.getD "" }
  else if pr.hasUnresolvedComments then
    some { task_type := .UNRESOLVED_COMMENTS, repo := repo,
           issue_number := pr.pullRequestId, title := pr.title.getD "" }
  else none

/-- Spec-side open-issue task emitted for one work-item reference. -/
def openIssueTask (env : TasksEnv) (organization project : String)
    (ref : WorkItemRef) : SuggestedTask :=
  { task_type := .OPEN_ISSUE,
    repo := organization ++ "/" ++ project,
    issue_number := ref.id,
    title := (env.workItemOf (work_item_url_of organization project ref)).title.getD "" }

/-- Concrete task environment: one pull request that has merge conflicts and a
failed status at once, plus one work item. -/
def envTasksW : TasksEnv :=
  { user_id := some "U",
    prs := [⟨some "r", some 7, some "T", some "conflicts", some "failed", true⟩],
    workItemRefs := [⟨some 9⟩],
    workItemOf := fun _ => ⟨some "WI"⟩ }

/-! Theorems.  The claim-level results are stated over the embedded operations
above; supporting lemmas come first where needed. -/

/-- Rewriting lemma: on an identifier with fewer than three slash-separated
segments, the shared parse fails with the invalid-format message. -/
theorem _parse_repository_short (repository : String)
    (h : (pySplit repository '/').length < 3) :
    _parse_repository repository =
      .error (.invalidFormat (invalid_format_message repository)) := by
  unfold _parse_repository
  simp [h]

/-- Claim C1: every identifier-consuming operation
(get_repository_details_from_repo_name, get_branches, get_paginated_branches,
create_pr, _parse_repository), given a repository identifier with fewer than
three slash-separated segments, fails with the invalid-format error whose
message carries the offending string and the expected format
organization/project/repo, and issues no HTTP request. -/
theorem identifier_ops_fail_without_requests
    (repository : String) (h : (pySplit repository '/').length < 3)
    (envR : RepoDetailsEnv) (envB : BranchEnv) (page per_page : Int)
    (envP : CreatePrEnv) (source_branch target_branch title : String)
    (body : Option String) (draft : Bool) :
    _parse_repository repository =
        .error (.invalidFormat (invalid_format_message repository)) ∧
    get_repository_details_from_repo_name envR repository =
        { result := .error (.invalidFormat (invalid_format_message repository)),
          requests := [] } ∧
    get_branches envB repository =
        { result := .error (.invalidFormat (invalid_format_message repository)),
          requests := [] } ∧
    get_paginated_branches envB repository page per_page =
        { result := .error (.invalidFormat (invalid_format_message repository)),
          requests := [] } ∧
    create_pr envP repository source_branch target_branch title body draft =
        { result := .error (.invalidFormat (invalid_format_message repository)),
          requests := [] } := by
  have hp := _parse_repository_short repository h
  refine ⟨hp, ?_, ?_, ?_, ?_⟩ <;>
    simp [get_repository_details_from_repo_name, get_branches,
      get_paginated_branches, create_pr, hp]

/-- Witness for C1 at the two-segment identifier a/b. -/
theorem identifier_ops_fail_witness :
    get_branches envBranchesW "a/b" =
      { result := .error (.invalidFormat (invalid_format_message "a/b")),
        requests := [] } ∧
    create_pr ⟨none⟩ "a/b" "s" "t" "ti" none false =
      { result := .error (.invalidFormat (invalid_format_message "a/b")),
        requests := [] } := by
  have h := identifier_ops_fail_without_requests "a/b" (by decide)
    ⟨⟨none, none, none⟩⟩ envBranchesW 1 30 ⟨none⟩ "s" "t" "ti" none false
  exact ⟨h.2.2.1, h.2.2.2.2⟩

/-- Claim C2: when the first response to a request is a 401, _make_request with the
refresh flag set re-fetches the credential and re-issues the request exactly
once, returning the second response payload if that response succeeds; with
the refresh flag clear it issues exactly one request and surfaces the typed
auth failure. -/
theorem make_request_401_retry {α : Type} (tokenPresent : Bool)
    (responses : Nat → HttpResponse α) (h : (responses 0).status = 401) :
    ((_make_request true tokenPresent responses).requests = 2 ∧
     1 ≤ (_make_request true tokenPresent responses).token_fetches ∧
     (isSuccessStatus (responses 1).status = true →
       (_make_request true tokenPresent responses).result = .ok (responses 1).body)) ∧
    ((_make_request false tokenPresent responses).requests = 1 ∧
     (_make_request false tokenPresent responses).result =
       .error (.authFailure 401)) := by
  constructor
  · unfold _make_request _has_token_expired
    simp only [h]
    refine ⟨by simp, by cases tokenPresent <;> simp, ?_⟩
    intro hs
    simp [raiseForStatus, hs]
  · unfold _make_request _has_token_expired
    simp only [h, Bool.false_and, if_neg]
    refine ⟨rfl, ?_⟩
    simp [raiseForStatus, h, isSuccessStatus, classifyStatus]

/-- Witness for C2 on the concrete 401-then-200 transport. -/
theorem make_request_401_retry_witness :
    (_make_request true true responsesW).requests = 2 ∧
    (_make_request true true responsesW).result = .ok 7 ∧
    (_make_request false true responsesW).requests = 1 ∧
    (_make_request false true responsesW).result = .error (.authFailure 401) := by
  have h := make_request_401_retry true responsesW rfl
  exact ⟨h.1.1, h.1.2.2 (by decide), h.2.1, h.2.2⟩

/-- Closed form of the inner repository loop: the entries for the first
remaining repositories of the project. -/
theorem appendProjectRepos_eq (pn : Option String) :
    ∀ (n : Nat) (rs : List RepoData),
      appendProjectRepos pn n rs = (rs.map (mkRepoEntry pn)).take n := by
  intro n rs
  induction rs generalizing n with
  | nil => cases n <;> simp [appendProjectRepos]
  | cons r rs ih =>
    cases n with
    | zero => simp [appendProjectRepos]
    | succ m => simp [appendProjectRepos, ih]

/-- Length of the inner repository loop result. -/
theorem appendProjectRepos_length (pn : Option String) (n : Nat) (rs : List RepoData) :
    (appendProjectRepos pn n rs).length = min n rs.length := by
  simp [appendProjectRepos_eq]

/-- The request log of the enumeration loop matches the spec-side capped
description, where remaining + collected = 1000 relates the two recursions. -/
theorem reposProjectLoop_log (env : ReposEnv) (organization : String) :
    ∀ (ps : List ProjectData) (remaining collected : Nat),
      remaining + collected = 1000 → 0 < remaining →
      (reposProjectLoop env organization remaining ps).2 =
        cappedFetchUrls env organization ps collected := by
  intro ps
  induction ps with
  | nil => intro remaining collected _ _; simp [reposProjectLoop, cappedFetchUrls]
  | cons p ps ih =>
    intro remaining collected hsum hpos
    have hlen := appendProjectRepos_length p.name remaining (env.reposOf (pyStr p.name))
    simp only [reposProjectLoop, cappedFetchUrls, hlen]
    by_cases hc : remaining ≤ (env.reposOf (pyStr p.name)).length
    · rw [if_pos (by omega), if_pos (by omega)]
    · rw [if_neg (by omega), if_neg (by omega)]
      have hmin : remaining - remaining ⊓ (env.reposOf (pyStr p.name)).length =
          remaining - (env.reposOf (pyStr p.name)).length := by omega
      rw [hmin, ih (remaining - (env.reposOf (pyStr p.name)).length)
        (collected + (env.reposOf (pyStr p.name)).length) (by omega) (by omega)]

/-- Claim C5: get_repositories issues exactly the capped sequence of per-project
requests (stopping as soon as 1000 entries are collected, so repositories of
later projects are neither fetched nor included), and whatever the sort
argument, a successful result never holds more than 1000 repositories. -/
theorem get_repositories_capped (env : ReposEnv) (organization sort : String) :
    (get_repositories env organization sort).requests =
      projects_url_of organization :: cappedFetchUrls env organization env.projects 0 ∧
    ∀ l, (get_repositories env organization sort).result = .ok l →
      l.length ≤ 1000 := by
  constructor
  · unfold get_repositories
    simp only
    rw [reposProjectLoop_log env organization env.projects 1000 0 rfl (by omega)]
  · intro l hl
    unfold get_repositories at hl
    simp only at hl
    revert hl
    generalize (if sort = "updated" then
        pySortUpdatedDesc (reposProjectLoop env organization 1000 env.projects).1
      else if sort = "name" then
        pySortNameAsc (reposProjectLoop env organization 1000 env.projects).1
      else .ok (reposProjectLoop env organization 1000 env.projects).1) = s
    intro hl
    cases s with
    | error e => simp [Except.map] at hl
    | ok l' =>
      simp only [Except.map, Except.ok.injEq] at hl
      subst hl
      simp only [List.length_map, List.length_take]
      omega

/-- Witness for C5 on the concrete one-repository environment. -/
theorem get_repositories_capped_witness :
    (get_repositories envReposW "org" "zzz").requests =
      projects_url_of "org" :: cappedFetchUrls envReposW "org" envReposW.projects 0 ∧
    ([⟨"1", "org/p/a", false⟩] : List Repository).length ≤ 1000 := by
  have h := get_repositories_capped envReposW "org" "zzz"
  exact ⟨h.1, h.2 [⟨"1", "org/p/a", false⟩] (by decide)⟩

/-- Claim C3 (failing input): sorting with sort = updated over one repository with a
lastUpdateTime and one without raises TypeError (the always-present
updated_date key holds None, so the dead '' default of the key function never
applies and CPython compares None with str), instead of treating the missing
timestamp as the empty string as the claim states; the same enumeration with a
non-sorting sort value returns both repositories in order. -/
theorem get_repositories_updated_sort_crashes :
    (get_repositories envReposMixedDates "org" "updated").result =
      .error .typeError ∧
    (get_repositories envReposMixedDates "org" "zzz").result =
      .ok [⟨"1", "org/p/r1", false⟩, ⟨"2", "org/p/r2", false⟩] := by
  decide

/-- Claim C4 (failing input): with twelve repositories, page = -1 and per_page = 10,
the unvalidated Python slice [-20:-10] clamps to [0:2] and returns the first
two repositories, not the empty page the claim states. -/
theorem get_paginated_repos_negative_page_not_empty :
    (get_paginated_repos envReposTwelve "org" (-1) 10 "zzz" none).result =
      .ok [⟨"0", "org/p/0", false⟩, ⟨"1", "org/p/1", false⟩] ∧
    (get_paginated_repos envReposTwelve "org" (-1) 10 "zzz" none).result ≠
      .ok [] := by
  decide

/-- Each ref processed by a branch loop costs exactly two requests. -/
theorem length_flatMap_branchReqUrls (org project repo_name policy_repo_id : String) :
    ∀ l : List RefData,
      (l.flatMap (branchReqUrls org project repo_name policy_repo_id)).length =
        2 * l.length := by
  intro l
  induction l with
  | nil => simp
  | cons r rs ih =>
    simp only [List.flatMap_cons, List.length_append, ih, branchReqUrls,
      List.length_cons, List.length_nil]
    omega

/-- Length of a Python slice whose bounds are in range. -/
theorem pySlice_length_of_bounds {α : Type} (l : List α) (s e : Int)
    (hs : 0 ≤ s) (hse : s ≤ e) (he : e ≤ (l.length : Int)) :
    (pySlice l s e).length = (e - s).toNat := by
  unfold pySlice pySliceIdx
  rw [if_neg (by omega), if_neg (by omega)]
  simp only [List.length_take, List.length_drop]
  omega

/-- Claim C6 (counterexample): with only five head refs, a page-2, per-page-10 call
issues 2 requests (repository id and refs list, the page slice being empty),
not the claimed 1 + 1 + 2 * 10 = 22, so the request count is not 22 regardless
of the total branch count. -/
theorem get_paginated_branches_small_total_cost :
    (get_paginated_branches envBranchFive "o/p/r" 2 10).requests.length = 2 ∧
    (get_paginated_branches envBranchFive "o/p/r" 2 10).requests.length ≠
      2 + 2 * 10 := by
  decide

/-- Claim C6 (amended): get_paginated_branches slices the fetched head-ref list to
the requested page before the per-branch lookups, so it issues 2 + 2 * (page
slice length) requests; whenever the refs list reaches page * per_page
entries (with page at least 1 and per_page nonnegative) that count is exactly
2 + 2 * per_page; and has_next_page holds exactly when page * per_page is
strictly below the total fetched ref count. -/
theorem get_paginated_branches_page_cost (env : BranchEnv)
    (repository org project repo_name : String) (page per_page : Int)
    (hparse : _parse_repository repository = .ok (org, project, repo_name)) :
    (get_paginated_branches env repository page per_page).requests.length =
      2 + 2 * (pySlice env.refs ((page - 1) * per_page)
        ((page - 1) * per_page + per_page)).length ∧
    (1 ≤ page → 0 ≤ per_page → page * per_page ≤ (env.refs.length : Int) →
      (get_paginated_branches env repository page per_page).requests.length =
        2 + 2 * per_page.toNat) ∧
    (∀ resp, (get_paginated_branches env repository page per_page).result = .ok resp →
      resp.has_next_page = decide (page * per_page < (env.refs.length : Int))) := by
  have hcount : (get_paginated_branches env repository page per_page).requests.length =
      2 + 2 * (pySlice env.refs ((page - 1) * per_page)
        ((page - 1) * per_page + per_page)).length := by
    unfold get_paginated_branches
    rw [hparse]
    simp only [List.length_cons, length_flatMap_branchReqUrls]
    omega
  refine ⟨hcount, ?_, ?_⟩
  · intro hpage hpp hlen
    rw [hcount, pySlice_length_of_bounds env.refs _ _
      (mul_nonneg (by omega) hpp) (by omega)
      (by rw [show (page - 1) * per_page + per_page = page * per_page from by ring]; exact hlen)]
    omega
  · intro resp hresp
    unfold get_paginated_branches at hresp
    rw [hparse] at hresp
    simp only [Except.ok.injEq] at hresp
    rw [← hresp]
    simp only
    rw [show (page - 1) * per_page + per_page = page * per_page from by ring]

/-- Witness for the amended C6 on twenty-five refs: page 2 with per_page 10
costs exactly 22 requests. -/
theorem get_paginated_branches_page_cost_witness :
    (get_paginated_branches envBranchMany "o/p/r" 2 10).requests.length = 2 + 2 * 10 := by
  have h := get_paginated_branches_page_cost envBranchMany "o/p/r" "o" "p" "r" 2 10 (by decide)
  have h2 := h.2.1 (by decide) (by decide) (by decide)
  simpa using h2

/-- A list is a prefix of itself followed by anything. -/
theorem isPrefixOf_append_self : ∀ (l t : List Char), l.isPrefixOf (l ++ t) = true := by
  intro l t
  induction l with
  | nil => simp [List.isPrefixOf]
  | cons a l ih => simp [List.isPrefixOf, ih]

/-- Replacement leaves a pattern-free list unchanged. -/
theorem pyReplaceFuel_of_no_occur (pat rep : List Char) :
    ∀ (fuel : Nat) (l : List Char), l.length ≤ fuel →
      listHasSeq pat l = false → pyReplaceFuel pat rep fuel l = l := by
  intro fuel
  induction fuel with
  | zero =>
    intro l hl _
    cases l with
    | nil => rfl
    | cons x xs => simp at hl
  | succ n ih =>
    intro l hl hno
    cases l with
    | nil => rfl
    | cons x xs =>
      simp only [listHasSeq, Bool.or_eq_false_iff] at hno
      unfold pyReplaceFuel
      rw [hno.1]
      simp only [Bool.false_and, if_neg Bool.false_ne_true]
      rw [ih xs (by simpa using Nat.le_of_succ_le_succ hl) hno.2]

/-- Replacing a non-empty pattern at the head of pattern ++ rest, where rest
is pattern-free, yields replacement ++ rest. -/
theorem pyReplaceFuel_strip (p0 : Char) (ptail rep lrest : List Char) (fuel : Nat)
    (hno : listHasSeq (p0 :: ptail) lrest = false) (hf : lrest.length ≤ fuel) :
    pyReplaceFuel (p0 :: ptail) rep (fuel + 1) ((p0 :: ptail) ++ lrest) =
      rep ++ lrest := by
  show pyReplaceFuel (p0 :: ptail) rep (fuel + 1) (p0 :: (ptail ++ lrest)) = rep ++ lrest
  unfold pyReplaceFuel
  rw [show (p0 :: (ptail ++ lrest)) = (p0 :: ptail) ++ lrest from rfl,
    isPrefixOf_append_self]
  simp only [List.isEmpty_cons, Bool.not_false, Bool.and_self, if_true,
    List.length_cons, Nat.add_sub_cancel, List.drop_left]
  rw [pyReplaceFuel_of_no_occur (p0 :: ptail) rep fuel lrest hf hno]

/-- String-level corollary for the refs/heads/ pattern: when rest does not
itself contain refs/heads/, replacing all occurrences in refs/heads/ ++ rest
by the empty string is exactly prefix stripping. -/
theorem pyReplace_refs_heads_strip (rest : String)
    (hno : strContains rest "refs/heads/" = false) :
    pyReplace ("refs/heads/" ++ rest) "refs/heads/" "" = rest := by
  unfold pyReplace
  rw [String.data_append]
  have hlen : ("refs/heads/".data ++ rest.data).length = (10 + rest.data.length) + 1 := by
    simp only [List.length_append]
    rw [show ("refs/heads/".data.length) = 11 from rfl]
    omega
  rw [hlen]
  rw [show "refs/heads/".data = 'r' :: "efs/heads/".data from rfl]
  rw [pyReplaceFuel_strip 'r' "efs/heads/".data "".data rest.data
    (10 + rest.data.length) hno (by omega)]
  rfl

/-- Closed form of the capped get_branches loop: the branches and request URLs
generated from the first remaining refs. -/
theorem branchFetchLoop_eq (env : BranchEnv) (org project repo_name : String) :
    ∀ (remaining : Nat) (refs : List RefData),
      branchFetchLoop env org project repo_name remaining refs =
        ((refs.take remaining).map (branchOfRef env org project repo_name repo_name),
         (refs.take remaining).flatMap (branchReqUrls org project repo_name repo_name)) := by
  intro remaining refs
  induction refs generalizing remaining with
  | nil => cases remaining <;> simp [branchFetchLoop]
  | cons r rs ih =>
    cases remaining with
    | zero => simp [branchFetchLoop]
    | succ m => simp [branchFetchLoop, ih m]

/-- Claim C8 (counterexample): for the ref named refs/heads/refs/heads/x (a branch
literally named refs/heads/x), get_branches reports the branch name x, because
str.replace removes every occurrence of refs/heads/, whereas stripping only
the prefix as the claim states would leave refs/heads/x. -/
theorem get_branches_replaces_all_occurrences :
    (get_branches envBranchNested "o/p/r").result =
      .ok [⟨"x", "abc", true, none⟩] ∧
    ("x" : String) ≠ "refs/heads/x" := by
  decide

/-- Claim C8 (amended): every branch returned by get_branches takes its name from a
fetched ref by removing every occurrence of refs/heads/ from the ref name
(which coincides with prefix stripping whenever the remainder does not itself
contain refs/heads/), and its protected flag holds exactly when the
policy-configurations response for that name is non-empty. -/
theorem get_branches_name_and_protected (env : BranchEnv)
    (repository org project repo_name : String)
    (hparse : _parse_repository repository = .ok (org, project, repo_name)) :
    ∀ bs, (get_branches env repository).result = .ok bs →
    ∀ b ∈ bs, ∃ r ∈ env.refs,
      b.name = pyReplace (r.name.getD "") "refs/heads/" "" ∧
      b.commit_sha = r.objectId.getD "" ∧
      b.is_protected =
        decide (0 < (env.policyOf (branch_policy_url org project repo_name b.name)).length) ∧
      (∀ rest : String, r.name = some ("refs/heads/" ++ rest) →
        strContains rest "refs/heads/" = false → b.name = rest) := by
  intro bs hbs b hb
  unfold get_branches at hbs
  rw [hparse] at hbs
  simp only [Except.ok.injEq] at hbs
  rw [branchFetchLoop_eq] at hbs
  subst hbs
  obtain ⟨r, hr, rfl⟩ := List.mem_map.1 hb
  refine ⟨r, List.take_subset _ _ hr, rfl, rfl, rfl, ?_⟩
  intro rest hname hno
  show (branchOfRef env org project repo_name repo_name r).name = rest
  unfold branchOfRef
  simp only [hname, Option.getD_some]
  exact pyReplace_refs_heads_strip rest hno

/-- Witness for the amended C8 on a single protected branch named main. -/
theorem get_branches_name_and_protected_witness :
    ∃ r ∈ envBranchPlain.refs,
      (Branch.mk "main" "s1" true (some "2024")).name =
        pyReplace (r.name.getD "") "refs/heads/" "" ∧
      (Branch.mk "main" "s1" true (some "2024")).commit_sha = r.objectId.getD "" ∧
      (Branch.mk "main" "s1" true (some "2024")).is_protected =
        decide (0 < (envBranchPlain.policyOf
          (branch_policy_url "o" "p" "r" (Branch.mk "main" "s1" true (some "2024")).name)).length) ∧
      (∀ rest : String,
        r.name = some ("refs/heads/" ++ rest) →
        strContains rest "refs/heads/" = false →
        (Branch.mk "main" "s1" true (some "2024")).name = rest) := by
  exact get_branches_name_and_protected envBranchPlain "o/p/r" "o" "p" "r" (by decide)
    [⟨"main", "s1", true, some "2024"⟩] (by decide)
    ⟨"main", "s1", true, some "2024"⟩ (by decide)

/-- The pull-request loop emits exactly the per-request classifications, in
order: at most one task per pull request. -/
theorem prTasksLoop_eq_filterMap (organization project : String) :
    ∀ prs, prTasksLoop organization project prs =
      prs.filterMap (classifyPrTask organization project) := by
  intro prs
  induction prs with
  | nil => rfl
  | cons pr prs ih =>
    simp only [prTasksLoop, classifyPrTask, List.filterMap_cons]
    split <;> split <;> try split
    all_goals simp_all

/-- The work-item loop emits exactly one open-issue task per reference. -/
theorem workItemTasksLoop_fst (env : TasksEnv) (organization project : String) :
    ∀ refs, (workItemTasksLoop env organization project refs).1 =
      refs.map (openIssueTask env organization project) := by
  intro refs
  induction refs with
  | nil => rfl
  | cons ref refs ih => simp [workItemTasksLoop, openIssueTask, ih]

/-- Claim C7: with no bound project, get_suggested_tasks returns the empty list and
issues no request; otherwise its result is the pull-request classifications
(at most one task per pull request, by priority order) followed by one
open-issue task per work item, pull-request tasks first; and a pull request
whose mergeStatus is conflicts is classified as exactly the one merge-conflict
task regardless of its status or comments flags. -/
theorem get_suggested_tasks_priority_and_order (env : TasksEnv)
    (organization project : String) :
    (project = "" →
      get_suggested_tasks env organization project = { result := [], requests := [] }) ∧
    (project ≠ "" →
      (get_suggested_tasks env organization project).result =
        env.prs.filterMap (classifyPrTask organization project) ++
          env.workItemRefs.map (openIssueTask env organization project)) ∧
    (∀ pr : PullRequestData, pr.mergeStatus = some "conflicts" →
      classifyPrTask organization project pr =
        some { task_type := .MERGE_CONFLICTS,
               repo := organization ++ "/" ++ project ++ "/" ++ pr.repository_name.getD "",
               issue_number := pr.pullRequestId,
               title := pr.title.getD "" }) := by
  refine ⟨?_, ?_, ?_⟩
  · intro h
    subst h
    simp [get_suggested_tasks]
  · intro h
    unfold get_suggested_tasks
    rw [if_neg (by simpa using h)]
    simp only
    rw [prTasksLoop_eq_filterMap, workItemTasksLoop_fst]
  · intro pr h
    unfold classifyPrTask
    rw [h]
    simp

/-- Witness for C7: the empty-project shortcut, and the decomposition on the
conflicted-and-failed environment. -/
theorem get_suggested_tasks_priority_witness :
    get_suggested_tasks envTasksW "o" "" = { result := [], requests := [] } ∧
    (get_suggested_tasks envTasksW "o" "p").result =
      envTasksW.prs.filterMap (classifyPrTask "o" "p") ++
        envTasksW.workItemRefs.map (openIssueTask envTasksW "o" "p") := by
  have h1 := get_suggested_tasks_priority_and_order envTasksW "o" ""
  have h2 := get_suggested_tasks_priority_and_order envTasksW "o" "p"
  exact ⟨h1.1 rfl, h2.2.1 (by decide)⟩

/-- Claim C9 (counterexample): an explicitly supplied empty body is not used
verbatim; the falsy check replaces it by the generated sentence. -/
theorem create_pr_empty_body_not_verbatim :
    (create_pr ⟨some 42⟩ "o/p/r" "feature-x" "main" "t" (some "") false).result =
      .ok (⟨"refs/heads/feature-x", "refs/heads/main", "t",
            "Merging changes from feature-x into main", false⟩,
           "https://dev.azure.com/o/p/_git/r/pullrequest/42") ∧
    "Merging changes from feature-x into main" ≠ "" := by
  decide

/-- Claim C9 (amended): on a well-formed identifier, create_pr sends refs/heads/
prefixed source and target ref names and the given title; the description is
the supplied body when that body is a non-empty string, and the generated
sentence Merging changes from source into target when the body is absent or
empty. -/
theorem create_pr_payload (env : CreatePrEnv)
    (repo_name org project repo source_branch target_branch title : String)
    (body : Option String) (draft : Bool)
    (hparse : _parse_repository repo_name = .ok (org, project, repo)) :
    ∃ url, (create_pr env repo_name source_branch target_branch title body draft).result =
      .ok ({ sourceRefName := "refs/heads/" ++ source_branch,
             targetRefName := "refs/heads/" ++ target_branch,
             title := title,
             description :=
               match body with
               | none => "Merging changes from " ++ source_branch ++ " into " ++ target_branch
               | some b =>
                 if b = "" then
                   "Merging changes from " ++ source_branch ++ " into " ++ target_branch
                 else b,
             isDraft := draft }, url) := by
  refine ⟨create_pr_web_url org project repo (pyIntStr env.pullRequestId), ?_⟩
  unfold create_pr
  rw [hparse]
  cases body with
  | none => rfl
  | some b =>
    by_cases hb : b = ""
    · subst hb
      rfl
    · simp [pyTruthyStrOpt, hb]

/-- Witness for the amended C9 with a missing body. -/
theorem create_pr_payload_witness :
    ∃ url, (create_pr ⟨some 42⟩ "o/p/r" "feature-x" "main" "t" none false).result =
      .ok ({ sourceRefName := "refs/heads/feature-x",
             targetRefName := "refs/heads/main",
             title := "t",
             description := "Merging changes from feature-x into main",
             isDraft := false }, url) := by
  exact create_pr_payload ⟨some 42⟩ "o/p/r" "o" "p" "r" "feature-x" "main" "t" none false (by decide)

/-- Splitting always produces at least one segment. -/
theorem splitChar_ne_nil (c : Char) : ∀ l, splitChar c l ≠ [] := by
  intro l
  cases l with
  | nil => simp [splitChar]
  | cons x xs =>
    unfold splitChar
    by_cases h : x = c
    · simp [h]
    · rw [if_neg h]
      cases splitChar c xs <;> simp

/-- A non-separator head does not change the segment count. -/
theorem splitChar_cons_ne_length (c x : Char) (l : List Char) (h : ¬x = c) :
    (splitChar c (x :: l)).length = (splitChar c l).length := by
  simp only [splitChar, if_neg h]
  cases hs : splitChar c l with
  | nil => exact absurd hs (splitChar_ne_nil c l)
  | cons y ys => simp

/-- Segment counts add up across an explicit separator occurrence. -/
theorem splitChar_append_sep_length (c : Char) :
    ∀ (l1 l2 : List Char),
      (splitChar c (l1 ++ c :: l2)).length =
        (splitChar c l1).length + (splitChar c l2).length := by
  intro l1 l2
  induction l1 with
  | nil =>
    simp only [List.nil_append, splitChar, if_true]
    simp only [List.length_cons, List.length_nil]
    omega
  | cons x xs ih =>
    by_cases h : x = c
    · subst h
      show (splitChar x (x :: (xs ++ x :: l2))).length =
        (splitChar x (x :: xs)).length + (splitChar x l2).length
      simp only [splitChar, if_true, List.length_cons, ih]
      omega
    · rw [List.cons_append, splitChar_cons_ne_length c x _ h,
        splitChar_cons_ne_length c x _ h, ih]

/-- Segment counts of slash-joined strings add up. -/
theorem pySplit_slash_append_length (a b : String) :
    (pySplit (a ++ "/" ++ b) '/').length =
      (pySplit a '/').length + (pySplit b '/').length := by
  unfold pySplit
  simp only [List.length_map]
  have hdata : (a ++ "/" ++ b).data = a.data ++ '/' :: b.data := by
    simp [String.data_append]
  rw [hdata, splitChar_append_sep_length]

/-- Every string splits into at least one segment. -/
theorem pySplit_length_pos (s : String) : 1 ≤ (pySplit s '/').length := by
  unfold pySplit
  simp only [List.length_map]
  cases hs : splitChar '/' s.data with
  | nil => exact absurd hs (splitChar_ne_nil '/' s.data)
  | cons y ys => simp

/-- On identifiers with at least three segments the parse succeeds. -/
theorem _parse_repository_ok_of_three (repository : String)
    (h : 3 ≤ (pySplit repository '/').length) :
    ∃ parts, _parse_repository repository = .ok parts := by
  unfold _parse_repository
  rw [if_neg (by omega)]
  exact ⟨_, rfl⟩

/-- Every task produced by the pull-request classification has a three-part
repo field and is not an open-issue task. -/
theorem classifyPrTask_shape (organization project : String)
    (pr : PullRequestData) (t : SuggestedTask)
    (h : classifyPrTask organization project pr = some t) :
    t.task_type ≠ .OPEN_ISSUE ∧
    ∃ rn, t.repo = organization ++ "/" ++ project ++ "/" ++ rn := by
  unfold classifyPrTask at h
  split at h
  · cases h
    exact ⟨by simp, ⟨_, rfl⟩⟩
  · split at h
    · cases h
      exact ⟨by simp, ⟨_, rfl⟩⟩
    · split at h
      · cases h
        exact ⟨by simp, ⟨_, rfl⟩⟩
      · cases h

/-- Claim C10: assuming the bound organization and project are single segments (as
produced by the constructor, which derives them by splitting the base domain
on slashes), every open-issue task emitted by get_suggested_tasks carries the
two-segment repo organization/project, which the shared identifier parse
rejects, while every pull-request-derived task carries a repo of at least
three segments, which the parse accepts. -/
theorem open_issue_tasks_two_segments (env : TasksEnv)
    (organization project : String)
    (horg : (pySplit organization '/').length = 1)
    (hproj : (pySplit project '/').length = 1) :
    ∀ t ∈ (get_suggested_tasks env organization project).result,
      (t.task_type = .OPEN_ISSUE →
        t.repo = organization ++ "/" ++ project ∧
        (pySplit t.repo '/').length = 2 ∧
        _parse_repository t.repo =
          .error (.invalidFormat (invalid_format_message t.repo))) ∧
      (t.task_type ≠ .OPEN_ISSUE →
        3 ≤ (pySplit t.repo '/').length ∧
        ∃ parts, _parse_repository t.repo = .ok parts) := by
  intro t ht
  by_cases hp : project == ""
  · unfold get_suggested_tasks at ht
    rw [if_pos hp] at ht
    simp at ht
  · unfold get_suggested_tasks at ht
    rw [if_neg hp] at ht
    simp only [List.mem_append] at ht
    rcases ht with ht | ht
    · rw [prTasksLoop_eq_filterMap] at ht
      obtain ⟨pr, _, hcls⟩ := List.mem_filterMap.1 ht
      obtain ⟨hne, rn, hrepo⟩ := classifyPrTask_shape organization project pr t hcls
      have hseg : 3 ≤ (pySplit t.repo '/').length := by
        rw [hrepo, pySplit_slash_append_length, pySplit_slash_append_length,
          horg, hproj]
        have := pySplit_length_pos rn
        omega
      exact ⟨fun h => absurd h hne,
        fun _ => ⟨hseg, _parse_repository_ok_of_three t.repo hseg⟩⟩
    · rw [workItemTasksLoop_fst] at ht
      obtain ⟨ref, _, rfl⟩ := List.mem_map.1 ht
      have hrepo : (openIssueTask env organization project ref).repo =
          organization ++ "/" ++ project := rfl
      have hseg : (pySplit (openIssueTask env organization project ref).repo '/').length = 2 := by
        rw [hrepo, pySplit_slash_append_length, horg, hproj]
      refine ⟨fun _ => ⟨hrepo, hseg, _parse_repository_short _ (by omega)⟩,
        fun h => absurd rfl h⟩

/-- Witness for C10: the open-issue task of the concrete environment has the
two-segment repo o/p and fails the identifier parse. -/
theorem open_issue_tasks_two_segments_witness :
    (SuggestedTask.mk .OPEN_ISSUE "o/p" (some 9) "WI").repo = "o" ++ "/" ++ "p" ∧
    (pySplit (SuggestedTask.mk .OPEN_ISSUE "o/p" (some 9) "WI").repo '/').length = 2 ∧
    _parse_repository (SuggestedTask.mk .OPEN_ISSUE "o/p" (some 9) "WI").repo =
      .error (.invalidFormat
        (invalid_format_message (SuggestedTask.mk .OPEN_ISSUE "o/p" (some 9) "WI").repo)) := by
  exact (open_issue_tasks_two_segments envTasksW "o" "p" (by decide) (by decide)
    ⟨.OPEN_ISSUE, "o/p", some 9, "WI"⟩ (by decide)).1 rfl

end AzureDevOps
